import Mathlib

/-!
Verification of the apiEYE scanner (src/api_scanner.py).

A shallow embedding: the classifier `detect_api` is a pure function on the
response body and headers; the probe `scan_domain_path` is modelled against a
network oracle `net` mapping each URL to either a transport exception or an
HTTP response; the scheduler loop of `main` is a fold over an arbitrary
completion order of the target list; `save_results` is a pure transformer of
the two output-file states.  String containment follows Python substring
semantics; header lookup is case-insensitive, as in the source's header
mapping.
-/

/-- Whether needle occurs as a contiguous run inside the character list. -/
def infixOfList (needle : List Char) : List Char → Bool
  | [] => needle.isEmpty
  | c :: hs => needle.isPrefixOf (c :: hs) || infixOfList needle hs

/-- Python substring test: needle occurs somewhere in hay. -/
def containsSub (hay needle : String) : Bool :=
  infixOfList needle.toList hay.toList

/-- Python str.lower(), character by character (the source only lowercases
ASCII header values and response bodies). -/
def strLower (s : String) : String :=
  ⟨s.data.map Char.toLower⟩

/-- HTTP response headers: key-value pairs; lookup is case-insensitive. -/
abbrev Headers := List (String × String)

/-- Python headers.get(key, dflt) on a case-insensitive header mapping. -/
def hGetD (hs : Headers) (key dflt : String) : String :=
  match hs.find? (fun kv => strLower kv.1 == strLower key) with
  | some kv => kv.2
  | none => dflt

/-- Python headers.get(key, "") on a case-insensitive header mapping. -/
def hGet (hs : Headers) (key : String) : String := hGetD hs key ""

/-- Python membership test key in headers, case-insensitive. -/
def hasKey (hs : Headers) (key : String) : Bool :=
  hs.any (fun kv => strLower kv.1 == strLower key)

/-- The JSON-ish body indicator tokens of src/api_scanner.py line 74. -/
def jsonTokens : List String :=
  ["\x7b\"", "\"data\":", "\"api\":", "\"response\":", "\"result\":"]

/-- The Cloudflare block test of src/api_scanner.py line 67: the lowercased
body contains "cloudflare" together with "challenge" or "attention required". -/
def isCloudflareBlock (text : String) : Bool :=
  let rl := strLower text
  containsSub rl "cloudflare" &&
    (containsSub rl "challenge" || containsSub rl "attention required")

/-- Embedding of detect_api (src/api_scanner.py lines 61-98): maps a response
body, its headers and the request URL to the pair (is API, optional label). -/
def detect_api (response_text : String) (headers : Headers) (url : String) :
    Bool × Option String :=
  let response_lower := strLower response_text
  let content_type := strLower (hGet headers "content-type")
  if isCloudflareBlock response_text then
    (false, some "Cloudflare Block")
  else if containsSub content_type "application/json" then
    (true, some "REST/JSON")
  else if jsonTokens.any (fun tok => containsSub response_lower tok) then
    (true, some "REST/JSON")
  else if containsSub response_lower "graphql" || containsSub response_lower "\"query\"" ||
      containsSub response_lower "graphiql" then
    (true, some "GraphQL")
  else if containsSub content_type "xml" || containsSub response_text "<?xml" ||
      containsSub response_lower "soap:envelope" then
    (true, some "SOAP/XML")
  else if ["swagger", "openapi", "api documentation", "api docs", "redoc"].any
      (fun d => containsSub response_lower d) then
    (true, some "API Documentation")
  else if ["fastapi", "django rest", "express", "flask-restful"].any
      (fun fw => containsSub response_lower fw) then
    (true, some "API Framework")
  else if ["fastapi", "werkzeug", "gunicorn"].any
      (fun sv => containsSub (strLower (hGet headers "server")) sv) then
    (true, some "API Server")
  else
    (false, none)

/-- Kinds of transport-level exceptions caught at src/api_scanner.py
lines 150-157: SSLError, Timeout, ConnectionError, and any other Exception. -/
inductive ExcKind where
  | sslError
  | timeout
  | connectionError
  | other
deriving DecidableEq

/-- An HTTP response as seen by the probe: body text, headers, status code. -/
structure Response where
  text : String
  headers : Headers
  status_code : Nat
deriving DecidableEq

/-- What one GET request produces: a transport exception or a response. -/
inductive FetchResult where
  | exc (e : ExcKind)
  | resp (r : Response)
deriving DecidableEq

/-- The result dictionary built by scan_domain_path (src/api_scanner.py
lines 117-125 and 138-143).  The fields added only on a positive
classification are Options, none when never set. -/
structure ScanResult where
  url : String
  domain : String
  path : String
  scheme : String
  is_api : Bool
  api_type : Option String
  timestamp : String
  status_code : Option Nat
  server : Option String
  cloudflare : Option Bool
deriving DecidableEq

/-- URL construction of src/api_scanner.py line 115. -/
def mkUrl (scheme domain path : String) : String :=
  scheme ++ "://" ++ domain ++ path

/-- One iteration of the scheme loop of scan_domain_path: issue the GET for
this scheme against the network oracle; on an exception return none (the
loop continues); on a response classify it, and return the populated result
exactly when the classification is positive. -/
def attemptScheme (net : String → FetchResult) (ts domain path scheme : String) :
    Option ScanResult :=
  let url := mkUrl scheme domain path
  match net url with
  | FetchResult.exc _ => none
  | FetchResult.resp response =>
    let det := detect_api response.text response.headers url
    if det.1 then
      some { url := url, domain := domain, path := path, scheme := scheme,
             is_api := true, api_type := det.2, timestamp := ts,
             status_code := some response.status_code,
             server := some (hGetD response.headers "server" "Unknown"),
             cloudflare := some (hasKey response.headers "cf-ray") }
    else
      none

/-- The scheme loop of src/api_scanner.py line 114: first scheme producing a
positive classification wins; exhaustion yields none. -/
def trySchemes (net : String → FetchResult) (ts domain path : String) :
    List String → Option ScanResult
  | [] => none
  | scheme :: rest =>
    match attemptScheme net ts domain path scheme with
    | some r => some r
    | none => trySchemes net ts domain path rest

/-- Embedding of scan_domain_path (src/api_scanner.py lines 100-159): try
the schemes https then http against the network oracle. -/
def scan_domain_path (net : String → FetchResult) (domain path : String)
    (timeout delay : Rat) (ts : String) : Option ScanResult :=
  trySchemes net ts domain path ["https", "http"]

/-- Observable effects of one probe call: the rate-limiting sleep and each
GET request issued. -/
inductive Event where
  | sleep (d : Rat)
  | request (url : String)
deriving DecidableEq

/-- True for a request event. -/
def isRequest : Event → Bool
  | Event.request _ => true
  | Event.sleep _ => false

/-- True for a sleep event. -/
def isSleep : Event → Bool
  | Event.sleep _ => true
  | Event.request _ => false

/-- Scheme loop instrumented with the GET requests it issues: a request is
issued for every scheme attempted, and the loop stops at the first scheme
whose response classifies as an API. -/
def traceSchemes (net : String → FetchResult) (ts domain path : String) :
    List String → Option ScanResult × List Event
  | [] => (none, [])
  | scheme :: rest =>
    match attemptScheme net ts domain path scheme with
    | some r => (some r, [Event.request (mkUrl scheme domain path)])
    | none =>
      let tail := traceSchemes net ts domain path rest
      (tail.1, Event.request (mkUrl scheme domain path) :: tail.2)

/-- scan_domain_path instrumented with its effect trace: the sleep of
src/api_scanner.py lines 110-111 happens first, when delay is positive, and
then the requests of the scheme loop follow. -/
def scan_trace (net : String → FetchResult) (domain path : String)
    (timeout delay : Rat) (ts : String) : Option ScanResult × List Event :=
  let run := traceSchemes net ts domain path ["https", "http"]
  (run.1, (if delay > 0 then [Event.sleep delay] else []) ++ run.2)

/-- Scheduler loop state of main (src/api_scanner.py lines 314-333): the
accumulated results list and the completed counter. -/
structure SchedState where
  results : List ScanResult
  completed : Nat
deriving DecidableEq

/-- Processing of one completed future in main's as_completed loop
(src/api_scanner.py lines 324-329): append the result when it is non-None,
and always increment the completed counter. -/
def schedStep (net : String → FetchResult) (delay : Rat) (ts : String)
    (st : SchedState) (target : String × String) : SchedState :=
  match scan_domain_path net target.1 target.2 10 delay ts with
  | some r => { results := st.results ++ [r], completed := st.completed + 1 }
  | none => { results := st.results, completed := st.completed + 1 }

/-- The whole scheduler loop, run over the order in which probes complete. -/
def runScheduler (net : String → FetchResult) (delay : Rat) (ts : String)
    (order : List (String × String)) : SchedState :=
  order.foldl (schedStep net delay ts) { results := [], completed := 0 }

/-- All intermediate scheduler states, initial state included. -/
def schedTrace (net : String → FetchResult) (delay : Rat) (ts : String)
    (order : List (String × String)) : List SchedState :=
  List.scanl (schedStep net delay ts) { results := [], completed := 0 } order

/-- Target generation of src/api_scanner.py line 301: the cross product of
the domain list and the path list. -/
def mkTargets (domains paths : List String) : List (String × String) :=
  domains.flatMap (fun domain => paths.map (fun path => (domain, path)))

/-- State of the structured JSON output file before a save: absent, present
but unparseable, or a parsed list of entries. -/
inductive JsonState where
  | absent
  | invalid
  | parsed (entries : List ScanResult)
deriving DecidableEq

/-- The two output files of save_results: the line-oriented text file and
the structured JSON file. -/
structure Store where
  textLines : List String
  jsonState : JsonState
deriving DecidableEq

/-- The filter applied by save_results to both outputs: keep the results
that are non-None and have is_api set. -/
def apiPositives (results : List (Option ScanResult)) : List ScanResult :=
  results.filterMap (fun o =>
    match o with
    | some r => if r.is_api then some r else none
    | none => none)

/-- Python str of an optional value, as interpolated by the f-string. -/
def optLabel : Option String → String
  | some s => s
  | none => "None"

/-- One line of the text report (src/api_scanner.py lines 218-220). -/
def fmtLine (r : ScanResult) : String :=
  let cf := if r.cloudflare = some true then " (Cloudflare)" else ""
  let status :=
    match r.status_code with
    | some c => toString c
    | none => "N/A"
  r.url ++ " | " ++ optLabel r.api_type ++ " | Status: " ++ status ++ cf

/-- The prior JSON content as loaded at src/api_scanner.py lines 224-231:
a parsed file yields its entries; an absent or unparseable file yields the
empty list. -/
def loadExisting : JsonState → List ScanResult
  | JsonState.parsed l => l
  | JsonState.absent => []
  | JsonState.invalid => []

/-- Embedding of save_results (src/api_scanner.py lines 210-236): append
one formatted line per API-positive result to the text file, and rewrite
the JSON file in full with the prior entries extended by the API-positive
results. -/
def save_results (results : List (Option ScanResult)) (store : Store) : Store :=
  { textLines := store.textLines ++ (apiPositives results).map fmtLine,
    jsonState := JsonState.parsed (loadExisting store.jsonState ++ apiPositives results) }

/-- A concrete API-positive outcome, used to instantiate theorems. -/
def okResult : ScanResult :=
  { url := "https://h.example/api", domain := "h.example", path := "/api",
    scheme := "https", is_api := true, api_type := some "REST/JSON",
    timestamp := "t0", status_code := some 200, server := some "gunicorn",
    cloudflare := some true }

/-- A concrete JSON response, used to instantiate theorems. -/
def okResponse : Response :=
  { text := "\x7b\"status\": \"up\"\x7d",
    headers := [("content-type", "application/json"), ("server", "gunicorn"),
                ("cf-ray", "8000-EWR")],
    status_code := 200 }

/-- A network oracle answering every URL with okResponse, used to
instantiate theorems. -/
def okNet : String → FetchResult := fun _ => FetchResult.resp okResponse

/-! Helper lemmas shared by the claim theorems. -/

theorem detect_api_shape (text : String) (headers : Headers) (url : String) :
    (isCloudflareBlock text = true ∧
      detect_api text headers url = (false, some "Cloudflare Block"))
    ∨ ((detect_api text headers url).1 = true ∧
        (detect_api text headers url).2.isSome = true)
    ∨ (isCloudflareBlock text = false ∧
        detect_api text headers url = (false, none)) := by
  unfold detect_api
  repeat' split <;> simp_all

theorem detect_api_true_label (text : String) (headers : Headers) (url : String)
    (h : (detect_api text headers url).1 = true) :
    (detect_api text headers url).2.isSome = true := by
  rcases detect_api_shape text headers url with ⟨_, he⟩ | ⟨_, h2⟩ | ⟨_, he⟩ <;>
    simp_all

theorem detect_api_block_eq (text : String) (headers : Headers) (url : String)
    (h : isCloudflareBlock text = true) :
    detect_api text headers url = (false, some "Cloudflare Block") := by
  unfold detect_api
  simp [h]

theorem attemptScheme_exc (net : String → FetchResult) (ts domain path scheme : String)
    (e : ExcKind) (h : net (mkUrl scheme domain path) = FetchResult.exc e) :
    attemptScheme net ts domain path scheme = none := by
  unfold attemptScheme
  simp [h]

theorem scan_eq_match (net : String → FetchResult) (domain path : String)
    (t d : Rat) (ts : String) :
    scan_domain_path net domain path t d ts =
      (match attemptScheme net ts domain path "https" with
       | some r => some r
       | none => attemptScheme net ts domain path "http") := by
  unfold scan_domain_path trySchemes
  cases h1 : attemptScheme net ts domain path "https" <;>
    cases h2 : attemptScheme net ts domain path "http" <;>
      simp [trySchemes, h1, h2]

theorem attemptScheme_notApi (net : String → FetchResult) (ts domain path scheme : String)
    (response : Response) (hr : net (mkUrl scheme domain path) = FetchResult.resp response)
    (hneg : (detect_api response.text response.headers (mkUrl scheme domain path)).1 = false) :
    attemptScheme net ts domain path scheme = none := by
  unfold attemptScheme
  simp [hr, hneg]

theorem traceSchemes_requests (net : String → FetchResult) (ts domain path : String)
    (schemes : List String) :
    ∀ e ∈ (traceSchemes net ts domain path schemes).2, isRequest e = true := by
  induction schemes with
  | nil => simp [traceSchemes]
  | cons s rest ih =>
    cases h : attemptScheme net ts domain path s <;>
      simp [traceSchemes, h, isRequest] <;> exact ih

/-- Claim C1 counterexample: on a response body carrying the Cloudflare
challenge marker, detect_api pairs isAPI = false with the non-None label
Cloudflare Block, so the claimed iff between a present label and a true
isAPI flag fails at this input. -/
theorem detect_api_label_iff_cex :
    ¬ (((detect_api "Cloudflare challenge page" [] "https://example.com/").2.isSome = true)
        ↔ ((detect_api "Cloudflare challenge page" [] "https://example.com/").1 = true)) := by
  decide

/-- Claim C1 (amended): for every body, header mapping and URL, the label
returned by detect_api is present if and only if the returned isAPI flag is
true or the body carries the Cloudflare challenge marker; in the latter case
the label is Cloudflare Block and isAPI is false. -/
theorem detect_api_label_iff_amended (text : String) (headers : Headers) (url : String) :
    ((detect_api text headers url).2.isSome = true)
      ↔ ((detect_api text headers url).1 = true ∨ isCloudflareBlock text = true) := by
  rcases detect_api_shape text headers url with ⟨hc, he⟩ | ⟨h1, h2⟩ | ⟨hc, he⟩ <;>
    simp_all

/-- Claim C2: for every response body containing the Cloudflare challenge
marker, detect_api returns isAPI = false whatever the rest of the body, the
headers and the URL are: the challenge test precedes every other check. -/
theorem detect_api_block_first (text : String) (headers : Headers) (url : String)
    (h : isCloudflareBlock text = true) :
    (detect_api text headers url).1 = false := by
  rw [detect_api_block_eq text headers url h]

/-- Claim C2 witness. -/
theorem detect_api_block_first_witness :
    (detect_api "cloudflare says: attention required | some graphql \x7b\"data\": 1\x7d"
      [("content-type", "application/json")] "https://example.com/api").1 = false :=
  detect_api_block_first
    "cloudflare says: attention required | some graphql \x7b\"data\": 1\x7d"
    [("content-type", "application/json")] "https://example.com/api" (by decide)

/-- Claim C3: the probe attempts schemes in the fixed order https then http:
its value is the https outcome when that scheme classifies positive, the
http outcome otherwise, and none when both schemes are exhausted without a
positive classification; and the requests actually issued stop at https
exactly when https yields a positive classification. -/
theorem scan_scheme_order (net : String → FetchResult) (domain path : String)
    (t d : Rat) (ts : String) :
    (scan_domain_path net domain path t d ts =
      (match attemptScheme net ts domain path "https" with
       | some r => some r
       | none => attemptScheme net ts domain path "http")) ∧
    ((scan_trace net domain path t d ts).2.filter isRequest =
      (match attemptScheme net ts domain path "https" with
       | some _ => [Event.request (mkUrl "https" domain path)]
       | none => [Event.request (mkUrl "https" domain path),
                  Event.request (mkUrl "http" domain path)])) := by
  refine ⟨scan_eq_match net domain path t d ts, ?_⟩
  unfold scan_trace traceSchemes
  cases h1 : attemptScheme net ts domain path "https" <;>
    cases h2 : attemptScheme net ts domain path "http" <;>
      (simp [traceSchemes, h1, h2, isRequest, List.filter_append];
        try (split <;> simp [isRequest, isSleep]))

/-- Claim C4: a transport-level exception on the https attempt is absorbed
and the probe proceeds to http; when http raises one as well, the probe
returns none instead of propagating an error. -/
theorem scan_transport_errors (net : String → FetchResult) (domain path : String)
    (t d : Rat) (ts : String) (e : ExcKind)
    (h1 : net (mkUrl "https" domain path) = FetchResult.exc e) :
    (scan_domain_path net domain path t d ts = attemptScheme net ts domain path "http") ∧
    (∀ e2 : ExcKind, net (mkUrl "http" domain path) = FetchResult.exc e2 →
      scan_domain_path net domain path t d ts = none) := by
  have hnone := attemptScheme_exc net ts domain path "https" e h1
  constructor
  · rw [scan_eq_match net domain path t d ts, hnone]
  · intro e2 h2
    rw [scan_eq_match net domain path t d ts, hnone,
      attemptScheme_exc net ts domain path "http" e2 h2]

/-- Claim C4 witness: a network on which every request raises keeps the
probe total and yields no outcome. -/
theorem scan_transport_errors_witness :
    scan_domain_path (fun _ => FetchResult.exc ExcKind.timeout)
      "example.com" "/api" 10 0 "t0" = none :=
  (scan_transport_errors (fun _ => FetchResult.exc ExcKind.timeout)
    "example.com" "/api" 10 0 "t0" ExcKind.timeout rfl).2 ExcKind.timeout rfl

/-- Claim C5 counterexample, both halves of the claim as stated.  First
half: a JSON content-typed response mentioning graphql does not always
yield (true, REST/JSON) — a body that also carries the Cloudflare challenge
marker yields (false, Cloudflare Block).  Second half: without a JSON
content-type, a body containing the quoted word query and mentioning
graphiql does not always yield (true, GraphQL) — a body that also contains
a JSON-ish token yields (true, REST/JSON). -/
theorem detect_api_precedence_cex :
    (containsSub (strLower (hGet [("content-type", "application/json")] "content-type"))
        "application/json" = true
      ∧ containsSub (strLower "cloudflare attention required graphql") "graphql" = true
      ∧ detect_api "cloudflare attention required graphql"
          [("content-type", "application/json")] "https://example.com/graphql"
          ≠ (true, some "REST/JSON"))
    ∧ (containsSub (strLower (hGet [] "content-type")) "application/json" = false
      ∧ containsSub (strLower "\x7b\"query\": 1\x7d graphiql") "\"query\"" = true
      ∧ containsSub (strLower "\x7b\"query\": 1\x7d graphiql") "graphiql" = true
      ∧ detect_api "\x7b\"query\": 1\x7d graphiql" [] "https://example.com/graphql"
          ≠ (true, some "GraphQL")) := by
  decide

/-- Claim C5 (amended): when the body does not carry the Cloudflare
challenge marker, a response whose content-type indicates JSON and whose
body mentions graphql classifies as (true, REST/JSON); and when in addition
the content-type does not indicate JSON and the body contains none of the
JSON-ish tokens, a body containing the quoted word query and mentioning
graphiql classifies as (true, GraphQL). -/
theorem detect_api_precedence_amended (text : String) (headers : Headers) (url : String) :
    (isCloudflareBlock text = false →
      containsSub (strLower (hGet headers "content-type")) "application/json" = true →
      containsSub (strLower text) "graphql" = true →
      detect_api text headers url = (true, some "REST/JSON"))
    ∧ (isCloudflareBlock text = false →
      containsSub (strLower (hGet headers "content-type")) "application/json" = false →
      (jsonTokens.any (fun tok => containsSub (strLower text) tok)) = false →
      containsSub (strLower text) "\"query\"" = true →
      containsSub (strLower text) "graphiql" = true →
      detect_api text headers url = (true, some "GraphQL")) := by
  constructor
  · intro hcf hct _
    unfold detect_api
    simp [hcf, hct]
  · intro hcf hct htok hq _
    unfold detect_api
    simp [hcf, hct, htok, hq]

/-- Claim C5 witness: the two amended halves at concrete inputs. -/
theorem detect_api_precedence_amended_witness :
    detect_api "hello graphql endpoint" [("content-type", "application/json")]
        "https://example.com/graphql" = (true, some "REST/JSON")
    ∧ detect_api "welcome to graphiql, post a \"query\" here" []
        "https://example.com/graphql" = (true, some "GraphQL") :=
  ⟨(detect_api_precedence_amended "hello graphql endpoint"
      [("content-type", "application/json")] "https://example.com/graphql").1
      (by decide) (by decide) (by decide),
   (detect_api_precedence_amended "welcome to graphiql, post a \"query\" here"
      [] "https://example.com/graphql").2
      (by decide) (by decide) (by decide) (by decide) (by decide)⟩

/-- Claim C9: when delay is positive, the probe's effect trace starts with
exactly one sleep of that duration, issued before any request, and every
later event is a request: the sleep is not repeated per scheme attempt. -/
theorem scan_sleep_once (net : String → FetchResult) (domain path : String)
    (t d : Rat) (ts : String) (hd : 0 < d) :
    ((scan_trace net domain path t d ts).2.countP isSleep = 1) ∧
    ((scan_trace net domain path t d ts).2 =
      Event.sleep d :: (scan_trace net domain path t d ts).2.filter isRequest) := by
  have hall := traceSchemes_requests net ts domain path ["https", "http"]
  have hreq : ∀ e ∈ (traceSchemes net ts domain path ["https", "http"]).2,
      isSleep e = false := by
    intro e he
    have := hall e he
    cases e <;> simp_all [isRequest, isSleep]
  unfold scan_trace
  simp only [hd, if_pos]
  constructor
  · rw [List.countP_append]
    have h0 : (traceSchemes net ts domain path ["https", "http"]).2.countP isSleep = 0 := by
      rw [List.countP_eq_zero]
      intro e he
      simp [hreq e he]
    simp [h0, isSleep]
  · rw [List.filter_append]
    have h1 : (List.filter isRequest [Event.sleep d]) = [] := by simp [isRequest]
    have h2 : (traceSchemes net ts domain path ["https", "http"]).2.filter isRequest
        = (traceSchemes net ts domain path ["https", "http"]).2 := by
      rw [List.filter_eq_self]
      exact hall
    simp [h1, h2]

/-- Claim C9 witness. -/
theorem scan_sleep_once_witness :
    ((scan_trace (fun _ => FetchResult.exc ExcKind.timeout)
        "example.com" "/api" 10 1 "t0").2.countP isSleep = 1) ∧
    ((scan_trace (fun _ => FetchResult.exc ExcKind.timeout)
        "example.com" "/api" 10 1 "t0").2 =
      Event.sleep 1 :: (scan_trace (fun _ => FetchResult.exc ExcKind.timeout)
        "example.com" "/api" 10 1 "t0").2.filter isRequest) :=
  scan_sleep_once (fun _ => FetchResult.exc ExcKind.timeout)
    "example.com" "/api" 10 1 "t0" (by norm_num)

/-- Claim C6: starting from an absent structured file, persisting the same
single API-positive outcome twice yields a structured file holding exactly
the two copies: the merge is pure append, with no deduplication and no
data loss. -/
theorem save_results_twice (r : ScanResult) (h : r.is_api = true) :
    (save_results [some r] (save_results [some r]
        { textLines := [], jsonState := JsonState.absent })).jsonState
      = JsonState.parsed [r, r] := by
  simp [save_results, apiPositives, loadExisting, h]

/-- Claim C6 witness. -/
theorem save_results_twice_witness :
    (save_results [some okResult] (save_results [some okResult]
        { textLines := [], jsonState := JsonState.absent })).jsonState
      = JsonState.parsed [okResult, okResult] :=
  save_results_twice okResult rfl

/-- Claim C7: a present but unparseable structured file is treated as an
empty prior collection instead of failing the run, and the structured file
is rewritten in full with exactly the merged collection, here the
API-positive outcomes of this run alone. -/
theorem save_results_unparseable (results : List (Option ScanResult))
    (textLines : List String) :
    save_results results { textLines := textLines, jsonState := JsonState.invalid }
      = { textLines := textLines ++ (apiPositives results).map fmtLine,
          jsonState := JsonState.parsed (apiPositives results) } := by
  simp [save_results, loadExisting]

theorem schedStep_completed (net : String → FetchResult) (delay : Rat) (ts : String)
    (st : SchedState) (target : String × String) :
    (schedStep net delay ts st target).completed = st.completed + 1 := by
  unfold schedStep
  split <;> rfl

theorem runScheduler_completed_aux (net : String → FetchResult) (delay : Rat)
    (ts : String) (l : List (String × String)) (st : SchedState) :
    (l.foldl (schedStep net delay ts) st).completed = st.completed + l.length := by
  induction l generalizing st with
  | nil => simp
  | cons a l ih =>
    rw [List.foldl_cons, ih, schedStep_completed, List.length_cons]
    omega

theorem schedTrace_completed_aux (net : String → FetchResult) (delay : Rat)
    (ts : String) (l : List (String × String)) (st : SchedState) :
    (List.scanl (schedStep net delay ts) st l).map SchedState.completed
      = List.range' st.completed (l.length + 1) := by
  induction l generalizing st with
  | nil => simp [List.scanl, List.range']
  | cons a l ih =>
    rw [List.scanl_cons, List.singleton_append, List.map_cons, ih,
      schedStep_completed, List.length_cons]
    simp [List.range'_succ]

theorem count_range_last (n : Nat) : (List.range (n + 1)).count n = 1 := by
  rw [List.range_succ, List.count_append]
  have h0 : (List.range n).count n = 0 := by
    rw [List.count_eq_zero]
    simp
  simp [h0]

theorem length_mkTargets (domains paths : List String) :
    (mkTargets domains paths).length = domains.length * paths.length := by
  induction domains with
  | nil => simp [mkTargets]
  | cons d ds ih =>
    simp only [mkTargets, List.flatMap_cons, List.length_append, List.length_map,
      List.length_cons] at *
    rw [ih]
    ring

/-- Claim C8: the target set is exactly the cross product of the host and
path lists, of size N equal to their product of lengths; however the N
completed probes are ordered, exactly N probes are processed, the completed
counter ends at N, and its trace of values reaches N exactly once. -/
theorem scheduler_invariant (net : String → FetchResult) (delay : Rat) (ts : String)
    (domains paths : List String) (order : List (String × String))
    (hperm : order.Perm (mkTargets domains paths)) :
    (∀ dp : String × String, dp ∈ mkTargets domains paths ↔
      (dp.1 ∈ domains ∧ dp.2 ∈ paths)) ∧
    (mkTargets domains paths).length = domains.length * paths.length ∧
    order.length = domains.length * paths.length ∧
    (runScheduler net delay ts order).completed = domains.length * paths.length ∧
    ((schedTrace net delay ts order).map SchedState.completed).count
        (domains.length * paths.length) = 1 := by
  have hlen : order.length = domains.length * paths.length := by
    rw [hperm.length_eq, length_mkTargets]
  refine ⟨?_, length_mkTargets domains paths, hlen, ?_, ?_⟩
  · intro dp
    cases dp with
    | mk a b =>
      simp only [mkTargets, List.mem_flatMap, List.mem_map, Prod.mk.injEq]
      constructor
      · rintro ⟨d, hd, p, hp, hda, hpb⟩
        exact ⟨hda ▸ hd, hpb ▸ hp⟩
      · rintro ⟨ha, hb⟩
        exact ⟨a, ha, b, hb, rfl, rfl⟩
  · rw [runScheduler, runScheduler_completed_aux, hlen]
    simp
  · rw [schedTrace, schedTrace_completed_aux, ← hlen]
    have : List.range' 0 (order.length + 1) = List.range (order.length + 1) := by
      rw [List.range_eq_range']
    rw [this, count_range_last]

/-- Claim C8 witness: one host and one path give one target, one processed
probe, and a completed counter reaching one exactly once. -/
theorem scheduler_invariant_witness :
    (runScheduler okNet 0 "t0" [("h.example", "/api")]).completed = 1 ∧
    ((schedTrace okNet 0 "t0" [("h.example", "/api")]).map SchedState.completed).count 1 = 1 :=
  ⟨(scheduler_invariant okNet 0 "t0" ["h.example"] ["/api"] [("h.example", "/api")]
      (List.Perm.refl _)).2.2.2.1,
   (scheduler_invariant okNet 0 "t0" ["h.example"] ["/api"] [("h.example", "/api")]
      (List.Perm.refl _)).2.2.2.2⟩


theorem attemptScheme_some_fields (net : String → FetchResult)
    (ts domain path scheme : String) (r : ScanResult)
    (h : attemptScheme net ts domain path scheme = some r) :
    r.is_api = true ∧ r.api_type.isSome = true ∧ r.status_code.isSome = true ∧
    r.server.isSome = true ∧ r.url = mkUrl scheme domain path ∧
    (∀ response : Response, net r.url = FetchResult.resp response →
      r.cloudflare = some (hasKey response.headers "cf-ray")) := by
  cases hn : net (mkUrl scheme domain path) with
  | exc e =>
    rw [attemptScheme_exc net ts domain path scheme e hn] at h
    exact absurd h (by simp)
  | resp response =>
    simp only [attemptScheme, hn] at h
    by_cases hd : (detect_api response.text response.headers
        (mkUrl scheme domain path)).1 = true
    · rw [if_pos hd] at h
      injection h with h
      subst h
      refine ⟨rfl, ?_, rfl, rfl, rfl, ?_⟩
      · exact detect_api_true_label response.text response.headers
          (mkUrl scheme domain path) hd
      · intro response2 h2
        have h3 : net (mkUrl scheme domain path) = FetchResult.resp response2 := h2
        rw [hn] at h3
        cases h3
        rfl
    · simp only [Bool.not_eq_true] at hd
      rw [if_neg (by simp [hd])] at h
      exact absurd h (by simp)

theorem trySchemes_some_attempt (net : String → FetchResult) (ts domain path : String)
    (schemes : List String) (r : ScanResult)
    (h : trySchemes net ts domain path schemes = some r) :
    ∃ scheme ∈ schemes, attemptScheme net ts domain path scheme = some r := by
  induction schemes with
  | nil => simp [trySchemes] at h
  | cons s rest ih =>
    unfold trySchemes at h
    cases ha : attemptScheme net ts domain path s with
    | some r2 =>
      simp only [ha] at h
      exact ⟨s, by simp, by rw [ha, h]⟩
    | none =>
      simp only [ha] at h
      obtain ⟨scheme, hmem, hsch⟩ := ih h
      exact ⟨scheme, by simp [hmem], hsch⟩

theorem scan_some_is_api (net : String → FetchResult) (domain path : String)
    (t d : Rat) (ts : String) (r : ScanResult)
    (h : scan_domain_path net domain path t d ts = some r) : r.is_api = true := by
  obtain ⟨scheme, _, hsch⟩ := trySchemes_some_attempt net ts domain path
    ["https", "http"] r h
  exact (attemptScheme_some_fields net ts domain path scheme r hsch).1

theorem runScheduler_results_api_aux (net : String → FetchResult) (delay : Rat)
    (ts : String) (l : List (String × String)) (st : SchedState)
    (hst : ∀ r ∈ st.results, r.is_api = true) :
    ∀ r ∈ (l.foldl (schedStep net delay ts) st).results, r.is_api = true := by
  induction l generalizing st with
  | nil => simpa using hst
  | cons a l ih =>
    rw [List.foldl_cons]
    apply ih
    intro r hr
    unfold schedStep at hr
    cases hs : scan_domain_path net a.1 a.2 10 delay ts with
    | none =>
      simp only [hs] at hr
      exact hst r hr
    | some r2 =>
      simp only [hs, List.mem_append, List.mem_singleton] at hr
      rcases hr with hr | hr
      · exact hst r hr
      · subst hr
        exact scan_some_is_api net a.1 a.2 10 delay ts r hs

/-- Claim C10: every non-None probe value is an outcome with is_api true
and populated api_type, status_code, server and cloudflare fields, the
cloudflare flag reflecting exactly the presence of a cf-ray response
header; and the scheduler's accumulated result collection never contains a
negative outcome. -/
theorem scan_positive_outcomes :
    (∀ (net : String → FetchResult) (domain path : String) (t d : Rat)
        (ts : String) (r : ScanResult),
      scan_domain_path net domain path t d ts = some r →
      r.is_api = true ∧ r.api_type.isSome = true ∧ r.status_code.isSome = true ∧
      r.server.isSome = true ∧ r.cloudflare.isSome = true ∧
      (∀ response : Response, net r.url = FetchResult.resp response →
        r.cloudflare = some (hasKey response.headers "cf-ray")))
    ∧ (∀ (net : String → FetchResult) (delay : Rat) (ts : String)
        (order : List (String × String)) (r : ScanResult),
      r ∈ (runScheduler net delay ts order).results → r.is_api = true) := by
  constructor
  · intro net domain path t d ts r h
    obtain ⟨scheme, _, hsch⟩ := trySchemes_some_attempt net ts domain path
      ["https", "http"] r h
    obtain ⟨h1, h2, h3, h4, hurl, h6⟩ :=
      attemptScheme_some_fields net ts domain path scheme r hsch
    refine ⟨h1, h2, h3, h4, ?_, h6⟩
    cases hn : net r.url with
    | exc e =>
      rw [hurl] at hn
      rw [attemptScheme_exc net ts domain path scheme e hn] at hsch
      exact absurd hsch (by simp)
    | resp response =>
      rw [h6 response hn]
      simp
  · intro net delay ts order r hr
    exact runScheduler_results_api_aux net delay ts order
      { results := [], completed := 0 } (by simp) r hr

/-- Claim C10 witness: against the all-JSON network oracle the probe yields
exactly okResult, every Optional field populated and the cloudflare flag
true, and the scheduler collects it. -/
theorem scan_positive_outcomes_witness :
    okResult.is_api = true ∧ okResult.api_type.isSome = true ∧
    okResult.status_code.isSome = true ∧ okResult.server.isSome = true ∧
    okResult.cloudflare = some true :=
  ⟨scan_positive_outcomes.2 okNet 0 "t0" [("h.example", "/api")] okResult (by decide),
   (scan_positive_outcomes.1 okNet "h.example" "/api" 10 0 "t0" okResult
      (by decide)).2.1,
   (scan_positive_outcomes.1 okNet "h.example" "/api" 10 0 "t0" okResult
      (by decide)).2.2.1,
   (scan_positive_outcomes.1 okNet "h.example" "/api" 10 0 "t0" okResult
      (by decide)).2.2.2.1,
   by
    have hcf := (scan_positive_outcomes.1 okNet "h.example" "/api" 10 0 "t0" okResult
      (by decide)).2.2.2.2.2 okResponse (by decide)
    rw [hcf]
    decide⟩
